import Mathlib

/-!
Verification development for the scitrera-app-framework core:
the layered configuration store (`api/variables.py`) and the plugin /
extension-point registry (`core/plugins.py`).

The Python code is shallowly embedded: Python dicts become association
lists (first binding wins on lookup, `aset` replaces in place), Python
sets of keys become duplicate-free lists (`addKey`), Python `None`
becomes the value `Val.none`, and functions that mutate `self` become
state-passing functions.  Exceptions become `Except` results; lifecycle
hook invocations are recorded in an event trace.
-/

namespace SAF

/-- Python runtime values as far as the configuration store and plugin
registry inspect them.  `Val.none` is Python `None`. -/
inductive Val where
  | none
  | str (s : String)
  | int (n : Int)
  | bool (b : Bool)
  deriving DecidableEq, Repr

/-- Association-list lookup: first binding wins (Python dict lookup). -/
def alookup {α : Type} : List (String × α) → String → Option α
  | [], _ => Option.none
  | (k, a) :: rest, key => if k = key then some a else alookup rest key

/-- Association-list update: replace the first binding in place, or append
a new binding at the end (Python dict assignment, insertion ordered). -/
def aset {α : Type} : List (String × α) → String → α → List (String × α)
  | [], key, a => [(key, a)]
  | (k, b) :: rest, key, a =>
      if k = key then (key, a) :: rest else (k, b) :: aset rest key a

/-- Add a key to a duplicate-free key list (Python `set.add`). -/
def addKey (ks : List String) (k : String) : List String :=
  if k ∈ ks then ks else ks ++ [k]

/-! ## Configuration store (`api/variables.py`, class `Variables`) -/

/-- The four placement policies of `EnvPlacement`. -/
inductive EnvPlacement where
  | top
  | bottom
  | bottom2
  | ignored
  deriving DecidableEq, Repr

/-- A tag naming one tier in the `_sources` priority list.  In the Python
code `self._sources` holds *references* to the process environment proxy,
`self._local`, the extra sources, and `self._fallback_defaults`; mutations
of those maps are visible through the list.  The embedding keeps the maps
as fields and the priority list as a list of tags. -/
inductive SourceTag where
  | env
  | localTag
  | extra (i : Nat)
  | defaults
  deriving DecidableEq, Repr

/-- Python `str.upper()` as `EnvironProxy` applies it to keys, embedded
as per-character uppercasing (the scenarios' keys are ASCII). -/
def upperKey (s : String) : String := String.mk (s.data.map Char.toUpper)

/-- The `Variables` configuration store.  `envMap` is the process
environment (`os.environ`); `EnvironProxy` matches keys after uppercasing.
`typeFns` is the per-key type-coercion function map. -/
structure Variables where
  envMap : List (String × Val)
  localMap : List (String × Val)
  fallbackDefaults : List (String × Val)
  typeFns : List (String × (Val → Val))
  knownKeys : List String
  sources : List SourceTag
  extras : List (List (String × Val))

namespace Variables

/-- Embeds `Variables.__init__`: build the fixed `_sources` priority list from the
placement policy.  `_absorb_keys` unions the keys of `_local` (empty at
construction) and of every given extra source into `_keys`. -/
def mkVars (envMap : List (String × Val)) (srcs : List (List (String × Val)))
    (placement : EnvPlacement) : Variables :=
  let extraTags := (List.range srcs.length).map SourceTag.extra
  let sources :=
    match placement with
    | .top => [SourceTag.env, SourceTag.localTag] ++ extraTags ++ [SourceTag.defaults]
    | .bottom => [SourceTag.localTag] ++ extraTags ++ [SourceTag.defaults, SourceTag.env]
    | .bottom2 => [SourceTag.localTag] ++ extraTags ++ [SourceTag.env, SourceTag.defaults]
    | .ignored => [SourceTag.localTag] ++ extraTags ++ [SourceTag.defaults]
  { envMap := envMap
    localMap := []
    fallbackDefaults := []
    typeFns := []
    knownKeys := ((srcs.map (fun s => s.map Prod.fst)).flatten).foldl addKey []
    sources := sources
    extras := srcs }

/-- Look a key up in one tier.  The environment tier goes through
`EnvironProxy.__getitem__`, which uppercases the key; a missing key is a
`KeyError`, treated by the caller as "no match in this tier". -/
def sourceLookup (v : Variables) (t : SourceTag) (k : String) : Option Val :=
  match t with
  | .env => alookup v.envMap (upperKey k)
  | .localTag => alookup v.localMap k
  | .extra i => (v.extras.get? i).bind (fun m => alookup m k)
  | .defaults => alookup v.fallbackDefaults k

/-- First tier in the priority list containing the key wins; a tier whose
lookup raises `KeyError` is skipped. -/
def scanSources (v : Variables) (k : String) : List SourceTag → Option Val
  | [] => Option.none
  | t :: rest =>
    match v.sourceLookup t k with
    | some m => some m
    | Option.none => scanSources v k rest

/-- The `match` scan of `Variables.__getitem__`: first tier containing the
key wins; with `local=True` only `_local` is consulted. -/
def resolveRaw (v : Variables) (k : String) (localOnly : Bool) : Option Val :=
  if localOnly then alookup v.localMap k
  else scanSources v k v.sources

/-- Embeds `Variables.__getitem__` (also bound as `get`): scan for a match; on a
match remember the key in `_keys` and apply the registered type function;
otherwise return the caller-supplied `default` (Python default `None`). -/
def getItem (v : Variables) (k : String) (default : Val := Val.none)
    (localOnly : Bool := false) : Val × Variables :=
  match v.resolveRaw k localOnly with
  | some m =>
    let v' := { v with knownKeys := addKey v.knownKeys k }
    match alookup v.typeFns k with
    | some f => (f m, v')
    | Option.none => (m, v')
  | Option.none => (default, v)

/-- Embeds `Variables.environ`: durably register the supplied default into
`_fallback_defaults` and the supplied type function into `_type_fns`, add
the key to `_keys` unconditionally, then delegate to `__getitem__`.
`default = Option.none` models the `NOT_SET` sentinel (argument absent). -/
def environ (v : Variables) (k : String) (default : Option Val := Option.none)
    (typeFn : Option (Val → Val) := Option.none) : Val × Variables :=
  let v1 :=
    match default with
    | some d => { v with fallbackDefaults := aset v.fallbackDefaults k d }
    | Option.none => v
  let v2 :=
    match typeFn with
    | some f => { v1 with typeFns := aset v1.typeFns k f }
    | Option.none => v1
  let v3 := { v2 with knownKeys := addKey v2.knownKeys k }
  v3.getItem k

/-- Embeds `Variables.set` / `__setitem__`: write into `_local`, mark known. -/
def setKey (v : Variables) (k : String) (x : Val) : Variables :=
  { v with localMap := aset v.localMap k x, knownKeys := addKey v.knownKeys k }

/-- Embeds `Variables.__contains__`: `key in self._keys or key in _environment`;
the environment proxy is consulted regardless of the placement policy,
matching the key after uppercasing. -/
def containsKey (v : Variables) (k : String) : Bool :=
  v.knownKeys.contains k || (alookup v.envMap (upperKey k)).isSome

end Variables

/-! ## Plugin registry and lifecycle (`core/plugins.py`, `api/plugins.py`)

The registries that the Python code stores under reserved `=|...|` keys of
a `Variables` instance (`=|PR|`, `=|IR|`, `=|EIR|`, `=|EOR|`,
`=|STARTUP_ORDER|`) are embedded directly as fields of `PluginState`.
A plugin instance is embedded as a `PluginDef` record of its method
results (`name`, `extension_point_name`, `is_enabled`,
`is_multi_extension`, `get_dependencies`, the value its `initialize`
returns, and whether each lifecycle hook raises); the claims' scenarios
hold the configuration fixed while resolving, so the `v`-dependence of
those methods is not varied.  The mutable instance flags (`collected`,
`initialized`, `_async_ready_called`, `_async_stopping_called`) live in
`PluginState`, keyed by plugin name (one registered instance per name).
Hook invocations are recorded as `Event`s; a caught-and-logged exception
is recorded as `Event.logWarning`. -/

/-- A registered plugin instance, as a record of its method results.
`typeId` stands for the concrete Python class, used by the
`isinstance` check of `register_plugin` (subclassing is not modelled). -/
structure PluginDef where
  name : String
  extName : String
  eager : Bool
  enabled : Bool
  multi : Bool
  deps : List String
  initValue : Val
  typeId : String
  shutdownRaises : Bool
  asyncReadyRaises : Bool
  asyncStoppingRaises : Bool
  deriving DecidableEq, Repr

/-- A slot of the multi-extension options registry `=|EOR|`: either the
`_NOT_INIT` sentinel put there at registration, or the value produced by
`initialize` (which may itself be Python `None`, i.e. `Val.none`). -/
inductive MultiVal where
  | notInit
  | val (x : Val)
  deriving DecidableEq, Repr

/-- Lifecycle hook invocations, in program order. -/
inductive Event where
  | onReg (plugin : String)
  | initCall (plugin : String)
  | asyncReady (plugin : String)
  | asyncStopping (plugin : String)
  | shutdownCall (plugin : String) (value : MultiVal)
  | logWarning (plugin : String)
  deriving DecidableEq, Repr

/-- The `ValueError`s raised by the plugin core, plus bookkeeping for the
embedding (`outOfFuel` for exhausted recursion fuel, `unpackNone` for the
`TypeError` Python would raise unpacking a `None` result,
`asyncHookError` for an exception re-raised out of the blocking
cross-thread async bridge). -/
inductive PErr where
  | pluginNotFound (name : String)
  | depNotFound (dep : String)
  | circularDep (dep : String) (name : String) (chain : List String)
  | duplicateExtensionPoint (extName : String) (writer : String) (takenBy : String)
  | duplicatePluginDefinition (name : String)
  | unknownExtensionPoint (extName : String)
  | asyncHookError (name : String)
  | unpackNone
  | outOfFuel
  deriving DecidableEq, Repr

/-- The registry state the Python code keeps in reserved `=|...|` keys.
`pr` is the plugin registry (`=|PR|`, name → registered instance), `er`
the implementations registry (`=|IR|`, extension point → (plugin name,
committed value)), `eir` the per-extension-point candidate set
(`=|EIR|`; a Python `set`, embedded as an insertion-ordered duplicate-free
list), `eor` the multi-extension options registry (`=|EOR|`), and
`startupOrder` the `=|STARTUP_ORDER|` list (plugin names).  `asyncAuto`
is `=|ASYNC_PLUGIN_LIFECYCLE_AUTO|` (default `true`); `loopCaptured`
models `get_captured_async_loop` returning a live loop, `inLoopThread`
models `_is_in_loop_thread`. -/
structure PluginState where
  pr : List (String × PluginDef)
  er : List (String × (String × Val))
  eir : List (String × List String)
  eor : List (String × List (String × (String × MultiVal)))
  startupOrder : List String
  collected : List String
  initialized : List String
  asyncReadyCalled : List String
  asyncStoppingCalled : List String
  asyncAuto : Bool
  loopCaptured : Bool
  inLoopThread : Bool
  deriving DecidableEq, Repr

/-- The empty registry state (fresh `Variables` instance, async auto-mode
at its default `True`, no captured loop). -/
def PluginState.empty : PluginState :=
  { pr := [], er := [], eir := [], eor := [], startupOrder := []
    collected := [], initialized := [], asyncReadyCalled := []
    asyncStoppingCalled := [], asyncAuto := true
    loopCaptured := false, inLoopThread := false }

/-- Write one slot of the `=|EOR|` registry
(`_multi_ext_options(ext_name, v)[pname] = slot`). -/
def eorSet (eor : List (String × List (String × (String × MultiVal))))
    (extName pname : String) (slot : String × MultiVal) :
    List (String × List (String × (String × MultiVal))) :=
  aset eor extName (aset ((alookup eor extName).getD []) pname slot)

/-- The candidate scan inside `_find_plugin_for_single_ext`: first
registered candidate whose `is_enabled` is true wins (`(opt, None)`). -/
def firstEnabledCandidate (ps : PluginState) : List String → Option (String × Val)
  | [] => Option.none
  | n :: rest =>
    match alookup ps.pr n with
    | some p => if p.enabled then some (n, Val.none) else firstEnabledCandidate ps rest
    | Option.none => firstEnabledCandidate ps rest

/-- Embeds `_find_plugin_for_single_ext`: a committed implementation wins;
otherwise scan the candidate set; `Option.none` is the `(None, None)`
result. -/
def findPluginForSingleExt (ps : PluginState) (extName : String) :
    Option (String × Val) :=
  match alookup ps.er extName with
  | some entry => some entry
  | Option.none => firstEnabledCandidate ps ((alookup ps.eir extName).getD [])

/-- The tail of `_init_plugin` from `plugin.collected = True` on: set the
flags, run `initialize` if the plugin is eager or initialization is
forced (with the automatic `async_ready` bridge), commit the result to
`=|IR|` and/or `=|EOR|`, and append the plugin to `=|STARTUP_ORDER|`.
In the blocking cross-thread branch of the bridge an exception from the
hook is re-raised in the caller (`future.result`), aborting
`_init_plugin`; in the fire-and-forget branch the task is scheduled and
the guard flag is set immediately. -/
def commitPlugin (ps : PluginState) (plugin : PluginDef) (name extName : String)
    (isSingle isMulti now : Bool) (tr0 : List Event) :
    Except PErr (Option (String × Val) × PluginState × List Event) :=
  let ps2 := { ps with collected := addKey ps.collected name }
  let step :=
    if plugin.eager || now then
      let ps3 := { ps2 with initialized := addKey ps2.initialized name }
      let tr := [Event.initCall name]
      if ps3.asyncAuto && !(ps3.asyncReadyCalled.contains name) && ps3.loopCaptured then
        if ps3.inLoopThread then
          Except.ok ({ ps3 with asyncReadyCalled := addKey ps3.asyncReadyCalled name },
            tr ++ [Event.asyncReady name], plugin.initValue)
        else if plugin.asyncReadyRaises then
          Except.error (PErr.asyncHookError name)
        else
          Except.ok ({ ps3 with asyncReadyCalled := addKey ps3.asyncReadyCalled name },
            tr ++ [Event.asyncReady name], plugin.initValue)
      else Except.ok (ps3, tr, plugin.initValue)
    else Except.ok (ps2, [], Val.none)
  match step with
  | .error e => .error e
  | .ok (ps3, tr, value) =>
    let ps4 := if isSingle then { ps3 with er := aset ps3.er extName (name, value) } else ps3
    let ps5 := if isMulti then
        { ps4 with eor := eorSet ps4.eor extName name (name, MultiVal.val value) }
      else ps4
    let ps6 := { ps5 with startupOrder := ps5.startupOrder ++ [name] }
    .ok (some (name, value), ps6, tr0 ++ tr)

mutual

/-- Embeds `_init_plugin(name, v, _requested_by, _now)`: look the plugin up in
`=|PR|` (a `local=True` read), return the committed `=|IR|` entry if the
extension point is already committed (idempotent), return `None` for an
inert plugin, expand the requested-by chain, initialize dependencies,
re-check `=|IR|` for a duplicate claim, then collect/initialize/commit.
`fuel` bounds the recursion depth of the embedding; the Python recursion
terminates through the circular-dependency check, and any fuel larger
than the number of registered plugins is enough for the scenarios. -/
def initPlugin (fuel : Nat) (ps : PluginState) (name : String)
    (requestedBy : Option (List String)) (now : Bool) :
    Except PErr (Option (String × Val) × PluginState × List Event) :=
  match fuel with
  | 0 => .error .outOfFuel
  | Nat.succ f =>
    match alookup ps.pr name with
    | Option.none => .error (.pluginNotFound name)
    | some plugin =>
      let extName := plugin.extName
      match alookup ps.er extName with
      | some entry => .ok (some entry, ps, [])
      | Option.none =>
        let isSingle := plugin.enabled
        let isMulti := plugin.multi
        if !(isSingle || isMulti) then .ok (Option.none, ps, [])
        else
          let requested :=
            match requestedBy with
            | Option.none => [extName]
            | some rb => addKey rb extName
          match initDeps f ps name plugin.deps requested with
          | .error e => .error e
          | .ok (ps1, tr1) =>
            match alookup ps1.er extName with
            | some (existingName, _) =>
              if !isMulti then
                .error (.duplicateExtensionPoint extName name existingName)
              else commitPlugin ps1 plugin name extName isSingle isMulti now tr1
            | Option.none => commitPlugin ps1 plugin name extName isSingle isMulti now tr1

/-- The dependency loop of `_init_plugin`: for each declared dependency,
resolve its owning plugin, fail if it is unregistered, fail with the
chain if it is already being resolved, otherwise recursively initialize
it. -/
def initDeps (fuel : Nat) (ps : PluginState) (parent : String)
    (deps : List String) (requested : List String) :
    Except PErr (PluginState × List Event) :=
  match fuel with
  | 0 => .error .outOfFuel
  | Nat.succ f =>
    match deps with
    | [] => .ok (ps, [])
    | dep :: rest =>
      match findPluginForSingleExt ps dep with
      | Option.none => .error (.depNotFound dep)
      | some (depName, _) =>
        if dep ∈ requested then .error (.circularDep dep parent requested)
        else
          match initPlugin f ps depName (some requested) false with
          | .error e => .error e
          | .ok (_, ps1, tr1) =>
            match initDeps f ps1 parent rest requested with
            | .error e => .error e
            | .ok (ps2, tr2) => .ok (ps2, tr1 ++ tr2)

end

/-- Embeds `register_plugin(plugin_type, v, init)`: instantiate the type; on
first registration of the name record the instance in `=|PR|`, add it to
the `=|EIR|` candidate set of its extension point, and pre-seed the
`=|EOR|` slot with `_NOT_INIT` for a multi plugin; on re-registration
with a different concrete type raise the duplicate-definition error.
Note: the source records the instance but never invokes its
`on_registration` hook.  If `init` is requested, `_init_plugin` runs
(without `_now`).  Returns the instance's name. -/
def registerPlugin (fuel : Nat) (ps : PluginState) (ptype : PluginDef)
    (init : Bool := false) : Except PErr (String × PluginState × List Event) :=
  let name := ptype.name
  let afterRecord : Except PErr PluginState :=
    match alookup ps.pr name with
    | Option.none =>
      let extName := ptype.extName
      let ps1 := { ps with pr := aset ps.pr name ptype }
      let ps2 := { ps1 with
        eir := aset ps1.eir extName (addKey ((alookup ps1.eir extName).getD []) name) }
      if ptype.multi && (alookup ((alookup ps2.eor extName).getD []) name).isNone then
        .ok { ps2 with eor := eorSet ps2.eor extName name (name, MultiVal.notInit) }
      else .ok ps2
    | some existing =>
      if existing.typeId ≠ ptype.typeId then .error (.duplicatePluginDefinition name)
      else .ok ps
  match afterRecord with
  | .error e => .error e
  | .ok ps' =>
    if init then
      match initPlugin fuel ps' name Option.none false with
      | .error e => .error e
      | .ok (_, ps'', tr) => .ok (name, ps'', tr)
    else .ok (name, ps', [])

/-- Embeds `get_extension(extension_point, v)` for a string extension point:
look up a committed `=|IR|` entry, else resolve a candidate, raising the
unknown-extension-point error when neither exists; when the hit's value
is `None` and its plugin is not yet initialized, call
`_init_plugin(..., _now=True)` and return the value of its result. -/
def getExtension (fuel : Nat) (ps : PluginState) (extPoint : String) :
    Except PErr (Val × PluginState × List Event) :=
  let hit :=
    match alookup ps.er extPoint with
    | some entry => some entry
    | Option.none => findPluginForSingleExt ps extPoint
  match hit with
  | Option.none => .error (.unknownExtensionPoint extPoint)
  | some (pname, value) =>
    if value = Val.none ∧ pname ∉ ps.initialized then
      match initPlugin fuel ps pname Option.none true with
      | .error e => .error e
      | .ok (Option.none, _, _) => .error .unpackNone
      | .ok (some (_, value2), ps2, tr) => .ok (value2, ps2, tr)
    else .ok (value, ps, [])

/-- The `plugin.shutdown(...)` call at the end of the per-plugin `try`
block of `shutdown_all_plugins`; an exception from the hook is caught by
the surrounding `except` and logged. -/
def shutdownCallStep (ps : PluginState) (plugin : PluginDef) (name : String)
    (value : MultiVal) (tr : List Event) : PluginState × List Event :=
  if plugin.shutdownRaises then
    (ps, tr ++ [Event.shutdownCall name value, Event.logWarning name])
  else (ps, tr ++ [Event.shutdownCall name value])

/-- The value lookup at the top of the per-plugin `try` block of
`shutdown_all_plugins`: `=|IR|` for an enabled plugin, `=|EOR|` for a
multi plugin — a missing entry is a `KeyError` (`Option.none` here);
a plugin neither enabled nor multi logs a warning and uses `None`. -/
def shutdownResolveValue (ps : PluginState) (plugin : PluginDef) (name : String) :
    Option (MultiVal × List Event) :=
  if plugin.enabled then
    match alookup ps.er plugin.extName with
    | some (_, value) => some (MultiVal.val value, [])
    | Option.none => Option.none
  else if plugin.multi then
    match alookup ((alookup ps.eor plugin.extName).getD []) name with
    | some (_, slot) => some (slot, [])
    | Option.none => Option.none
  else some (MultiVal.val Val.none, [Event.logWarning name])

/-- The rest of the `try` block once the value is resolved: run the
automatic `async_stopping` bridge (an exception in its blocking branch is
caught by the `except`, skipping the sync shutdown), then call
`shutdown(v, logger, value)`. -/
def shutdownCommitted (ps : PluginState) (plugin : PluginDef) (name : String)
    (value : MultiVal) (tr0 : List Event) : PluginState × List Event :=
  if ps.asyncAuto && !(ps.asyncStoppingCalled.contains name) && ps.loopCaptured then
    if ps.inLoopThread then
      shutdownCallStep
        { ps with asyncStoppingCalled := addKey ps.asyncStoppingCalled name }
        plugin name value (tr0 ++ [Event.asyncStopping name])
    else if plugin.asyncStoppingRaises then
      (ps, tr0 ++ [Event.asyncStopping name, Event.logWarning name])
    else
      shutdownCallStep
        { ps with asyncStoppingCalled := addKey ps.asyncStoppingCalled name }
        plugin name value (tr0 ++ [Event.asyncStopping name])
  else shutdownCallStep ps plugin name value tr0

/-- One iteration of the `shutdown_all_plugins` loop: skip plugins whose
`initialized` flag is unset; inside a `try`, resolve the committed value
(a `KeyError` is caught and logged by the `except`, skipping this
plugin's shutdown), then run the bridge and the `shutdown` hook. -/
def shutdownOne (ps : PluginState) (name : String) : PluginState × List Event :=
  match alookup ps.pr name with
  | Option.none => (ps, [])
  | some plugin =>
    if name ∈ ps.initialized then
      match shutdownResolveValue ps plugin name with
      | Option.none => (ps, [Event.logWarning name])
      | some (value, tr0) => shutdownCommitted ps plugin name value tr0
    else (ps, [])

/-- Sequence `shutdownOne` over a list of plugin names. -/
def shutdownSeq : PluginState → List String → PluginState × List Event
  | ps, [] => (ps, [])
  | ps, n :: rest =>
    let r1 := shutdownOne ps n
    let r2 := shutdownSeq r1.1 rest
    (r2.1, r1.2 ++ r2.2)

/-- Embeds `shutdown_all_plugins(v)`: walk `=|STARTUP_ORDER|` in reverse. -/
def shutdownAllPlugins (ps : PluginState) : PluginState × List Event :=
  shutdownSeq ps ps.startupOrder.reverse

/-- One iteration of the `async_plugins_ready` loop: skip plugins whose
`initialized` flag is unset; creating the coroutine does not run the hook
body, so the hook fires only when awaited, guarded by
`_async_ready_called`; an exception from the awaited hook is caught and
logged, leaving the guard flag unset. -/
def asyncReadyOne (ps : PluginState) (name : String) : PluginState × List Event :=
  match alookup ps.pr name with
  | Option.none => (ps, [])
  | some plugin =>
    if name ∈ ps.initialized then
      if ps.asyncReadyCalled.contains name then (ps, [])
      else if plugin.asyncReadyRaises then
        (ps, [Event.asyncReady name, Event.logWarning name])
      else
        ({ ps with asyncReadyCalled := addKey ps.asyncReadyCalled name },
         [Event.asyncReady name])
    else (ps, [])

/-- Sequence `asyncReadyOne` over a list of plugin names. -/
def asyncReadySeq : PluginState → List String → PluginState × List Event
  | ps, [] => (ps, [])
  | ps, n :: rest =>
    let r1 := asyncReadyOne ps n
    let r2 := asyncReadySeq r1.1 rest
    (r2.1, r1.2 ++ r2.2)

/-- Embeds `async_plugins_ready(v, capture_loop=True)`: optionally capture the
running loop (the driver runs in the loop's own thread, so the captured
thread is the current one), then walk `=|STARTUP_ORDER|` forward. -/
def asyncPluginsReady (ps : PluginState) (captureLoop : Bool := true) :
    PluginState × List Event :=
  let ps0 := if captureLoop then { ps with loopCaptured := true, inLoopThread := true } else ps
  asyncReadySeq ps0 ps0.startupOrder

/-! ## Statement helpers and concrete scenarios -/

/-- Project the final registry state out of a plugin-core result
(the empty state on error; the scenarios below all succeed). -/
def resStateD {α : Type} (r : Except PErr (α × PluginState × List Event)) : PluginState :=
  match r with
  | .ok (_, ps, _) => ps
  | .error _ => PluginState.empty

/-- Project the event trace out of a plugin-core result. -/
def resTrace {α : Type} (r : Except PErr (α × PluginState × List Event)) : List Event :=
  match r with
  | .ok (_, _, tr) => tr
  | .error _ => []

/-- Whether a plugin-core result is a success. -/
def resOk {α : Type} (r : Except PErr α) : Bool :=
  match r with
  | .ok _ => true
  | .error _ => false

/-- The plugin names carried by the `shutdown` invocations of a trace,
in order. -/
def shutdownCalls (tr : List Event) : List String :=
  tr.filterMap (fun e =>
    match e with
    | Event.shutdownCall n _ => some n
    | _ => Option.none)

/-- A plugin description template: eager, enabled, single-extension, no
dependencies, well-behaved hooks. -/
def basePlugin : PluginDef :=
  { name := "", extName := "", eager := true, enabled := true, multi := false,
    deps := [], initValue := Val.none, typeId := "", shutdownRaises := false,
    asyncReadyRaises := false, asyncStoppingRaises := false }

/-- The plugin of `test_core_plugins.py::TestOnRegistration` (an eager
plugin whose class overrides the `on_registration` hook). -/
def onRegPlugin : PluginDef :=
  { basePlugin with
      name := "onreg-plugin"
      extName := "onreg-ext"
      typeId := "OnRegPlugin"
      initValue := Val.str "value"
  }

/-- State after `register_plugin(OnRegPlugin, v, init=True)` on a fresh
environment. -/
def c1State : PluginState :=
  resStateD (registerPlugin 10 PluginState.empty onRegPlugin true)

/-- First claimant of extension point `dup-ext` (single mode). -/
def c2p1 : PluginDef :=
  { basePlugin with
      name := "p1"
      extName := "dup-ext"
      typeId := "P1"
      initValue := Val.str "v1"
  }

/-- Second claimant of extension point `dup-ext` (single mode). -/
def c2p2 : PluginDef :=
  { basePlugin with
      name := "p2"
      extName := "dup-ext"
      typeId := "P2"
      initValue := Val.str "v2"
  }

/-- State after registering and initializing `p1`, then registering `p2`
at the same extension point: `dup-ext` is committed to `p1`. -/
def c2State : PluginState :=
  resStateD (registerPlugin 10
    (resStateD (registerPlugin 10 PluginState.empty c2p1 true)) c2p2 false)

/-- Dependency-chain scenario, plugin A (no dependencies). -/
def c3a : PluginDef :=
  { basePlugin with
      name := "pa"
      extName := "ext-a"
      typeId := "A"
      initValue := Val.str "va"
  }

/-- Dependency-chain scenario, plugin B (depends on A's point). -/
def c3b : PluginDef :=
  { basePlugin with
      name := "pb"
      extName := "ext-b"
      typeId := "B"
      deps := ["ext-a"]
      initValue := Val.str "vb"
  }

/-- Dependency-chain scenario, plugin C (depends on B's point). -/
def c3c : PluginDef :=
  { basePlugin with
      name := "pc"
      extName := "ext-c"
      typeId := "C"
      deps := ["ext-b"]
      initValue := Val.str "vc"
  }

/-- A, B, C registered (no initialization yet). -/
def c3State : PluginState :=
  resStateD (registerPlugin 10
    (resStateD (registerPlugin 10
      (resStateD (registerPlugin 10 PluginState.empty c3a false)) c3b false)) c3c false)

/-- Cycle scenario, plugin X (depends on Y's point). -/
def c4x : PluginDef :=
  { basePlugin with
      name := "px"
      extName := "ext-x"
      typeId := "X"
      deps := ["ext-y"]
  }

/-- Cycle scenario, plugin Y (depends on X's point). -/
def c4y : PluginDef :=
  { basePlugin with
      name := "py"
      extName := "ext-y"
      typeId := "Y"
      deps := ["ext-x"]
  }

/-- X and Y registered (no initialization yet). -/
def c4State : PluginState :=
  resStateD (registerPlugin 10
    (resStateD (registerPlugin 10 PluginState.empty c4x false)) c4y false)

/-- Shutdown scenario, plugin A. -/
def c5a : PluginDef :=
  { basePlugin with
      name := "pa"
      extName := "ext-a"
      typeId := "A"
      initValue := Val.str "va"
  }

/-- Shutdown scenario, plugin B, whose `shutdown` hook raises. -/
def c5b : PluginDef :=
  { basePlugin with
      name := "pb"
      extName := "ext-b"
      typeId := "B"
      initValue := Val.str "vb"
      shutdownRaises := true
  }

/-- Shutdown scenario, plugin C. -/
def c5c : PluginDef :=
  { basePlugin with
      name := "pc"
      extName := "ext-c"
      typeId := "C"
      initValue := Val.str "vc"
  }

/-- A, B, C registered and initialized in that order. -/
def c5State : PluginState :=
  resStateD (registerPlugin 10
    (resStateD (registerPlugin 10
      (resStateD (registerPlugin 10 PluginState.empty c5a true)) c5b true)) c5c true)

/-- The lazy plugin of `test_core_plugins.py` (`eager = False`,
`initialize` returning `"lazy_value"`). -/
def lazyPlugin : PluginDef :=
  { basePlugin with
      name := "lazyp"
      extName := "lazy-ext"
      typeId := "Lazy"
      eager := false
      initValue := Val.str "lazy_value"
  }

/-- State after `register_plugin(LazyPlugin, v, init=True)`: the point
`lazy-ext` is lazily committed with value `None`, the plugin's
`initialized` flag unset. -/
def c6CommittedState : PluginState :=
  resStateD (registerPlugin 10 PluginState.empty lazyPlugin true)

/-- State after `register_plugin(LazyPlugin, v, init=False)`: the plugin
is only recorded as a candidate, nothing committed. -/
def c6FreshState : PluginState :=
  resStateD (registerPlugin 10 PluginState.empty lazyPlugin false)

/-- State after `get_extension("lazy-ext")` on `c6FreshState` (forced
initialization of the lazy candidate). -/
def c6ForcedState : PluginState :=
  resStateD (getExtension 10 c6FreshState "lazy-ext")

/-- An eager plugin whose `async_ready` hook raises. -/
def raisingAsync : PluginDef :=
  { basePlugin with
      name := "q"
      extName := "q-ext"
      typeId := "Q"
      initValue := Val.str "qv"
      asyncReadyRaises := true
  }

/-- State with `raisingAsync` registered and initialized (no loop captured yet, so
the automatic bridge did not run). -/
def c9BadState : PluginState :=
  resStateD (registerPlugin 10 PluginState.empty raisingAsync true)

/-- First explicit `async_plugins_ready` drive over `c9BadState`. -/
def c9Run1 : PluginState × List Event :=
  asyncPluginsReady c9BadState

/-- Second explicit `async_plugins_ready` drive. -/
def c9Run2 : PluginState × List Event :=
  asyncPluginsReady c9Run1.1

/-- An enabled single-extension plugin with a well-behaved `async_ready`
hook and parametric eagerness. -/
def goodAsync (e : Bool) : PluginDef :=
  { basePlugin with
      name := "g"
      extName := "g-ext"
      typeId := "G"
      eager := e
      initValue := Val.str "gv"
  }

/-- Full event trace of: register `goodAsync e` with `init=True` in a
state whose loop-captured / loop-thread flags are `b` / `c` (so the
automatic bridge runs exactly when `b`), then drive the explicit
`async_plugins_ready` twice. -/
def c9GoodTrace (e b c : Bool) : List Event :=
  let st0 : PluginState := { PluginState.empty with loopCaptured := b, inLoopThread := c }
  match registerPlugin 10 st0 (goodAsync e) true with
  | .error _ => []
  | .ok (_, st1, tr1) =>
    let r1 := asyncPluginsReady st1
    let r2 := asyncPluginsReady r1.1
    tr1 ++ r1.2 ++ r2.2

deriving instance DecidableEq for Except

/-! ## Helper lemmas -/

theorem alookup_aset_self {α : Type} (m : List (String × α)) (k : String) (a : α) :
    alookup (aset m k a) k = some a := by
  induction m with
  | nil => simp [aset, alookup]
  | cons hd tl ih =>
    obtain ⟨k', b⟩ := hd
    by_cases h : k' = k
    · simp [aset, alookup, h]
    · simp [aset, alookup, h, ih]

theorem mem_addKey_self (ks : List String) (k : String) : k ∈ addKey ks k := by
  unfold addKey
  split
  · assumption
  · simp

theorem mem_addKey_of_mem (ks : List String) (k x : String) (h : x ∈ ks) :
    x ∈ addKey ks k := by
  unfold addKey
  split
  · exact h
  · exact List.mem_append_left _ h

theorem scanSources_all_none (v : Variables) (k : String) (tags : List SourceTag)
    (h : ∀ t ∈ tags, v.sourceLookup t k = Option.none) :
    Variables.scanSources v k tags = Option.none := by
  induction tags with
  | nil => rfl
  | cons t rest ih =>
    have ht := h t (List.mem_cons_self t rest)
    simp only [Variables.scanSources, ht]
    exact ih (fun t' ht' => h t' (List.mem_cons_of_mem _ ht'))

theorem scanSources_defaults_hit (v : Variables) (k : String) (d : Val)
    (tags : List SourceTag)
    (h : ∀ t ∈ tags, t ≠ SourceTag.defaults → v.sourceLookup t k = Option.none)
    (hd : alookup v.fallbackDefaults k = some d)
    (hmem : SourceTag.defaults ∈ tags) :
    Variables.scanSources v k tags = some d := by
  induction tags with
  | nil => cases hmem
  | cons t rest ih =>
    by_cases hdef : t = SourceTag.defaults
    · subst hdef
      simp [Variables.scanSources, Variables.sourceLookup, hd]
    · have ht := h t (List.mem_cons_self t rest) hdef
      have hmem' : SourceTag.defaults ∈ rest := by
        cases hmem with
        | head => exact absurd rfl hdef
        | tail _ hm => exact hm
      simp only [Variables.scanSources, ht]
      exact ih (fun t' ht' hne => h t' (List.mem_cons_of_mem _ ht') hne) hmem'

theorem getItem_fallback_hit (w : Variables) (k : String) (d : Val)
    (henv : alookup w.envMap (upperKey k) = Option.none)
    (hloc : alookup w.localMap k = Option.none)
    (hext : ∀ m ∈ w.extras, alookup m k = Option.none)
    (htf : alookup w.typeFns k = Option.none)
    (hd : alookup w.fallbackDefaults k = some d)
    (hmem : SourceTag.defaults ∈ w.sources) :
    w.getItem k = (d, { w with knownKeys := addKey w.knownKeys k }) := by
  have hscan : Variables.scanSources w k w.sources = some d := by
    apply scanSources_defaults_hit w k d w.sources _ hd hmem
    intro t ht hne
    cases t with
    | env => exact henv
    | localTag => exact hloc
    | extra i =>
      simp only [Variables.sourceLookup]
      cases hg : w.extras.get? i with
      | none => rfl
      | some m => simp [hext m (List.get?_mem hg)]
    | defaults => exact absurd rfl hne
  simp [Variables.getItem, Variables.resolveRaw, hscan, htf]

theorem getItem_fallback_two_reads (w : Variables) (k : String) (d : Val)
    (henv : alookup w.envMap (upperKey k) = Option.none)
    (hloc : alookup w.localMap k = Option.none)
    (hext : ∀ m ∈ w.extras, alookup m k = Option.none)
    (htf : alookup w.typeFns k = Option.none)
    (hd : alookup w.fallbackDefaults k = some d)
    (hmem : SourceTag.defaults ∈ w.sources) :
    (w.getItem k).1 = d ∧ ((w.getItem k).2.getItem k).1 = d := by
  have h1 := getItem_fallback_hit w k d henv hloc hext htf hd hmem
  have h2 := getItem_fallback_hit { w with knownKeys := addKey w.knownKeys k } k d
    henv hloc hext htf hd hmem
  rw [h1]
  exact ⟨rfl, by rw [show ((d, { w with knownKeys := addKey w.knownKeys k }) :
    Val × Variables).2 = { w with knownKeys := addKey w.knownKeys k } from rfl, h2]⟩

theorem getItem_knownKeys (v : Variables) (k : String) (d : Val) (lo : Bool) :
    ((v.getItem k d lo).2).knownKeys =
      if (v.resolveRaw k lo).isSome then addKey v.knownKeys k else v.knownKeys := by
  unfold Variables.getItem
  cases h : v.resolveRaw k lo with
  | none => simp [h]
  | some m => cases htf : alookup v.typeFns k <;> simp [h, htf]

theorem shutdownCallStep_state (ps : PluginState) (p : PluginDef) (n : String)
    (value : MultiVal) (tr : List Event) :
    (shutdownCallStep ps p n value tr).1 = ps := by
  unfold shutdownCallStep
  split <;> rfl

theorem shutdownCommitted_preserves (ps : PluginState) (p : PluginDef) (n : String)
    (value : MultiVal) (tr0 : List Event) :
    (shutdownCommitted ps p n value tr0).1.pr = ps.pr ∧
    (shutdownCommitted ps p n value tr0).1.er = ps.er ∧
    (shutdownCommitted ps p n value tr0).1.eor = ps.eor ∧
    (shutdownCommitted ps p n value tr0).1.initialized = ps.initialized := by
  unfold shutdownCommitted
  repeat' split <;> try simp [shutdownCallStep_state]

theorem shutdownOne_preserves (ps : PluginState) (n : String) :
    (shutdownOne ps n).1.pr = ps.pr ∧ (shutdownOne ps n).1.er = ps.er ∧
    (shutdownOne ps n).1.eor = ps.eor ∧
    (shutdownOne ps n).1.initialized = ps.initialized := by
  unfold shutdownOne
  repeat' split <;> try simp [shutdownCommitted_preserves]

theorem shutdownCommitted_calls (ps : PluginState) (p : PluginDef) (n : String)
    (value : MultiVal) (tr0 : List Event)
    (hst : p.asyncStoppingRaises = false) :
    shutdownCalls (shutdownCommitted ps p n value tr0).2 =
      shutdownCalls tr0 ++ [n] := by
  unfold shutdownCommitted shutdownCallStep
  repeat' split <;> try simp_all [shutdownCalls]

theorem shutdownResolveValue_some (ps : PluginState) (p : PluginDef) (n : String)
    (hen : p.enabled = true → (alookup ps.er p.extName).isSome = true)
    (hmu : p.enabled = false → p.multi = true →
      (alookup ((alookup ps.eor p.extName).getD []) n).isSome = true) :
    ∃ value tr0, shutdownResolveValue ps p n = some (value, tr0) ∧
      shutdownCalls tr0 = [] := by
  unfold shutdownResolveValue
  by_cases hpe : p.enabled = true
  · obtain ⟨⟨pn, pv⟩, he⟩ := Option.isSome_iff_exists.mp (hen hpe)
    exact ⟨MultiVal.val pv, [], by simp [hpe, he], rfl⟩
  · have hpe' : p.enabled = false := by simpa using hpe
    by_cases hpm : p.multi = true
    · obtain ⟨⟨pn, slot⟩, he⟩ := Option.isSome_iff_exists.mp (hmu hpe' hpm)
      exact ⟨slot, [], by simp [hpe', hpm, he], rfl⟩
    · exact ⟨MultiVal.val Val.none, [Event.logWarning n],
        by simp [hpe', hpm], by simp [shutdownCalls]⟩

theorem shutdownOne_calls (ps : PluginState) (n : String) (p : PluginDef)
    (hp : alookup ps.pr n = some p)
    (hval : n ∈ ps.initialized →
      (p.enabled = true → (alookup ps.er p.extName).isSome = true) ∧
      (p.enabled = false → p.multi = true →
        (alookup ((alookup ps.eor p.extName).getD []) n).isSome = true) ∧
      p.asyncStoppingRaises = false) :
    shutdownCalls (shutdownOne ps n).2 = if n ∈ ps.initialized then [n] else [] := by
  by_cases hi : n ∈ ps.initialized
  · obtain ⟨hen, hmu, hst⟩ := hval hi
    obtain ⟨value, tr0, hres, htr0⟩ := shutdownResolveValue_some ps p n hen hmu
    simp [shutdownOne, hp, hi, hres, shutdownCommitted_calls ps p n value tr0 hst, htr0]
  · simp [shutdownOne, hp, hi, shutdownCalls]

theorem shutdownSeq_calls (names : List String) (ps : PluginState)
    (h : ∀ n ∈ names, ∃ p, alookup ps.pr n = some p ∧
      (n ∈ ps.initialized →
        (p.enabled = true → (alookup ps.er p.extName).isSome = true) ∧
        (p.enabled = false → p.multi = true →
          (alookup ((alookup ps.eor p.extName).getD []) n).isSome = true) ∧
        p.asyncStoppingRaises = false)) :
    shutdownCalls (shutdownSeq ps names).2 =
      names.filter (fun n => decide (n ∈ ps.initialized)) := by
  induction names generalizing ps with
  | nil => simp [shutdownSeq, shutdownCalls]
  | cons n rest ih =>
    obtain ⟨p, hp, hv⟩ := h n (List.mem_cons_self n rest)
    have hone := shutdownOne_calls ps n p hp hv
    have hpres := shutdownOne_preserves ps n
    have hrest := ih (shutdownOne ps n).1 (by
      intro m hm
      obtain ⟨q, hq, hqv⟩ := h m (List.mem_cons_of_mem _ hm)
      refine ⟨q, ?_, ?_⟩
      · rw [hpres.1]; exact hq
      · rw [hpres.2.2.2, hpres.2.1, hpres.2.2.1]; exact hqv)
    simp only [shutdownSeq, shutdownCalls, List.filterMap_append] at *
    rw [hone, hrest, hpres.2.2.2]
    by_cases hi : n ∈ ps.initialized <;> simp [hi]

/-! ## Claim theorems -/

/-- C1 (code bug): the spec, the `Plugin.on_registration` docstring and
`test_core_plugins.py::TestOnRegistration` all say the hook fires exactly
once on first registration, before initialization — but `register_plugin`
in `core/plugins.py` never invokes it.  Evaluating the embedded code on
the tests' scenario: first registration with `init=True` produces only
the `initialize` event (zero `on_registration` events), and a repeated
registration produces no events at all. -/
theorem register_plugin_fires_no_registration_hook :
    (registerPlugin 10 PluginState.empty onRegPlugin true =
      Except.ok ("onreg-plugin", c1State, [Event.initCall "onreg-plugin"])) ∧
    (registerPlugin 10 c1State onRegPlugin false =
      Except.ok ("onreg-plugin", c1State, [])) ∧
    ((resTrace (registerPlugin 10 PluginState.empty onRegPlugin true)).count
      (Event.onReg "onreg-plugin") = 0) := by decide

/-- C2 (counterexample): two non-multi plugins `p1`, `p2` registered at
extension point `dup-ext`, `p1` initialized (the point is committed).
Forcing initialization of `p2` does *not* raise a duplicate-extension-
point error: `_init_plugin` returns the committed `(p1, v1)` entry
immediately from its idempotence check. -/
theorem forced_init_on_committed_point_cex :
    (initPlugin 10 c2State "p2" Option.none true =
      Except.ok (some ("p1", Val.str "v1"), c2State, [])) ∧
    alookup c2State.er "dup-ext" = some ("p1", Val.str "v1") ∧
    alookup c2State.pr "p2" = some c2p2 ∧
    c2p1.multi = false ∧ c2p2.multi = false ∧
    "p1" ∈ c2State.initialized := by decide

/-- C2 (amended): when a plugin's extension point is already committed in
the implementations registry, `_init_plugin` on that plugin returns the
committed entry unchanged, raising nothing and leaving the state and the
trace untouched (first-resolved-wins idempotence); the duplicate error of
the later conflict check is reachable only when the point becomes
committed during the plugin's own dependency processing. -/
theorem initPlugin_committed_point_idempotent (fuel : Nat) (ps : PluginState)
    (name : String) (plugin : PluginDef) (entry : String × Val)
    (requestedBy : Option (List String)) (now : Bool)
    (hp : alookup ps.pr name = some plugin)
    (he : alookup ps.er plugin.extName = some entry) :
    initPlugin (fuel + 1) ps name requestedBy now = Except.ok (some entry, ps, []) := by
  simp only [initPlugin, hp, he]

/-- C2 (witness): the amended idempotence theorem applied to the concrete
two-claimant scenario. -/
theorem initPlugin_committed_point_idempotent_witness :
    initPlugin 10 c2State "p2" Option.none true =
      Except.ok (some ("p1", Val.str "v1"), c2State, []) := by
  exact initPlugin_committed_point_idempotent 9 c2State "p2" c2p2 ("p1", Val.str "v1")
    Option.none true (by decide) (by decide)

/-- C3: with enabled plugins A, B, C registered where C depends on B's
extension point and B on A's, initializing C succeeds, runs the
`initialize` hooks as A, B, C, and appends exactly `[A, B, C]` to the
startup-order list — a topological order with parents before children. -/
theorem dependency_chain_startup_order :
    c3State.startupOrder = [] ∧
    (resStateD (initPlugin 10 c3State "pc" Option.none false)).startupOrder =
      ["pa", "pb", "pc"] ∧
    resTrace (initPlugin 10 c3State "pc" Option.none false) =
      [Event.initCall "pa", Event.initCall "pb", Event.initCall "pc"] ∧
    resOk (initPlugin 10 c3State "pc" Option.none false) = true := by decide

/-- C4: with X depending on Y's extension point and Y on X's,
initializing either plugin raises the circular-dependency error, carrying
the chain of extension points in progress (both points appear in the
chain), instead of recursing forever. -/
theorem circular_dependency_raises :
    initPlugin 10 c4State "px" Option.none false =
      Except.error (PErr.circularDep "ext-x" "py" ["ext-x", "ext-y"]) ∧
    initPlugin 10 c4State "py" Option.none false =
      Except.error (PErr.circularDep "ext-y" "px" ["ext-y", "ext-x"]) := by decide

/-- C5: `shutdown_all_plugins` emits a `shutdown(config, logger, value)`
call for exactly the plugins marked initialized, in the exact reverse of
the recorded startup order, whatever each plugin's `shutdown` hook does
(a raising hook is caught and logged and does not suppress any later
call).  Hypotheses: every startup-order entry is registered, every
initialized plugin's committed value is present where the loop looks it
up, and no initialized plugin's `async_stopping` hook raises (a raising
hook in the blocking bridge branch is caught by the same `except` and
would skip that one plugin's sync shutdown). -/
theorem shutdown_reverse_order_with_isolation (ps : PluginState)
    (h : ∀ n ∈ ps.startupOrder, ∃ p, alookup ps.pr n = some p ∧
      (n ∈ ps.initialized →
        (p.enabled = true → (alookup ps.er p.extName).isSome = true) ∧
        (p.enabled = false → p.multi = true →
          (alookup ((alookup ps.eor p.extName).getD []) n).isSome = true) ∧
        p.asyncStoppingRaises = false)) :
    shutdownCalls (shutdownAllPlugins ps).2 =
      ps.startupOrder.reverse.filter (fun n => decide (n ∈ ps.initialized)) := by
  exact shutdownSeq_calls ps.startupOrder.reverse ps
    (fun n hn => h n (List.mem_reverse.mp hn))

/-- C5 (witness): plugins A, B, C initialized in that order, B's
`shutdown` hook raising — the shutdown calls still occur as C, B, A. -/
theorem shutdown_reverse_order_with_isolation_witness :
    shutdownCalls (shutdownAllPlugins c5State).2 = ["pc", "pb", "pa"] ∧
    c5State.startupOrder = ["pa", "pb", "pc"] ∧ c5b.shutdownRaises = true := by
  have h := shutdown_reverse_order_with_isolation c5State (by decide)
  refine ⟨?_, by decide, by decide⟩
  rw [h]
  decide

/-- C6 (counterexample): the lazy plugin registered with `init=True` is
lazily committed (`=|IR|` holds `(lazyp, None)`, `initialized` unset);
`get_extension` on its point then returns `None` without ever invoking
`initialize` — the forced `_now=True` re-initialization is defeated by
`_init_plugin`'s committed-point early return. -/
theorem get_extension_lazily_committed_cex :
    lazyPlugin.eager = false ∧
    lazyPlugin.initValue = Val.str "lazy_value" ∧
    alookup c6CommittedState.er "lazy-ext" = some ("lazyp", Val.none) ∧
    "lazyp" ∉ c6CommittedState.initialized ∧
    getExtension 10 c6CommittedState "lazy-ext" =
      Except.ok (Val.none, c6CommittedState, []) := by decide

/-- C6 (amended): when the extension point is uncommitted,
`get_extension` resolves an enabled candidate and forces immediate
initialization even of a lazy plugin, returning its `initialize` value;
when the point is committed it returns the committed value as is (for a
lazily-committed plugin that value is `None`, without initializing); and
with no enabled candidate at all it raises the unknown-extension-point
error. -/
theorem get_extension_resolution_behavior :
    (getExtension 10 c6FreshState "lazy-ext" =
      Except.ok (Val.str "lazy_value", c6ForcedState, [Event.initCall "lazyp"])) ∧
    (getExtension 10 c6ForcedState "lazy-ext" =
      Except.ok (Val.str "lazy_value", c6ForcedState, [])) ∧
    (getExtension 10 PluginState.empty "nothing-here" =
      Except.error (PErr.unknownExtensionPoint "nothing-here")) := by decide

/-- C7: an `environ` call supplying default `d` for a key `k` that no
other tier contains (environment, local overlay, extra sources) and that
has no registered type function returns `d`, and a subsequent
defaultless `get` of `k` on the resulting store still returns `d`: the
default was durably registered in the fallback-defaults tier. -/
theorem environ_default_durability (v : Variables) (k : String) (d : Val)
    (henv : alookup v.envMap (upperKey k) = Option.none)
    (hloc : alookup v.localMap k = Option.none)
    (hext : ∀ m ∈ v.extras, alookup m k = Option.none)
    (htf : alookup v.typeFns k = Option.none)
    (hmem : SourceTag.defaults ∈ v.sources) :
    (v.environ k (some d)).1 = d ∧ ((v.environ k (some d)).2.getItem k).1 = d := by
  exact getItem_fallback_two_reads
    { v with fallbackDefaults := aset v.fallbackDefaults k d,
             knownKeys := addKey v.knownKeys k } k d
    henv hloc hext htf (alookup_aset_self _ _ _) hmem

/-- C7 (witness): on a fresh environment-first store,
`environ("rate", default=9)` returns 9 and so does the next plain get. -/
theorem environ_default_durability_witness :
    ((Variables.mkVars [] [] EnvPlacement.top).environ "rate" (some (Val.int 9))).1 =
      Val.int 9 ∧
    (((Variables.mkVars [] [] EnvPlacement.top).environ "rate"
      (some (Val.int 9))).2.getItem "rate").1 = Val.int 9 := by
  exact environ_default_durability (Variables.mkVars [] [] EnvPlacement.top) "rate"
    (Val.int 9) rfl rfl (by intro m hm; cases hm) rfl (by simp [Variables.mkVars])

/-- C8 (counterexample): on a fresh store, a plain (non-local) `get` of an
absent key leaves the known-keys set empty — reads that find no match do
not add the key, contradicting the claim that every non-local read does. -/
theorem read_miss_does_not_add_key_cex :
    ((Variables.mkVars [] [] EnvPlacement.top).getItem "X").2.knownKeys = [] := by rfl

/-- C8 (amended): an `environ` read always adds its key to the known-keys
set; a `get`/`__getitem__` read — local-only or not — adds the key exactly
when a match is found and leaves the known-keys set unchanged otherwise. -/
theorem known_keys_update_on_reads :
    (∀ (v : Variables) (k : String) (d : Option Val) (tf : Option (Val → Val)),
      k ∈ ((v.environ k d tf).2).knownKeys) ∧
    (∀ (v : Variables) (k : String) (d : Val) (lo : Bool),
      ((v.getItem k d lo).2).knownKeys =
        if (v.resolveRaw k lo).isSome then addKey v.knownKeys k else v.knownKeys) := by
  refine ⟨?_, getItem_knownKeys⟩
  intro v k d tf
  cases d <;> cases tf <;>
    · simp only [Variables.environ]
      rw [getItem_knownKeys]
      split
      · exact mem_addKey_of_mem _ _ _ (mem_addKey_self _ _)
      · exact mem_addKey_self _ _

/-- C9 (counterexample): a plugin whose `async_ready` hook raises is
driven twice by the explicit `async_plugins_ready`; the hook fires (and
raises) on both runs — the guard flag is set only after a successful
await, so a raising hook is not idempotent across driver runs. -/
theorem async_ready_raising_hook_fires_twice_cex :
    "q" ∈ c9BadState.initialized ∧
    (c9Run1.2 ++ c9Run2.2) =
      [Event.asyncReady "q", Event.logWarning "q",
       Event.asyncReady "q", Event.logWarning "q"] ∧
    (c9Run1.2 ++ c9Run2.2).count (Event.asyncReady "q") = 2 := by decide

/-- C9 (amended): for an initialized plugin whose `async_ready` hook does
not raise, the hook fires exactly once across registration-time automatic
bridging (any combination of captured-loop and loop-thread flags) plus
two explicit driver runs — whichever mechanism runs first sets the guard
flag and every later one skips; with `eager=false` the plugin is only
lazily committed, stays uninitialized, and the hook never fires. -/
theorem async_ready_at_most_once_nonraising :
    ∀ (e b c : Bool),
      (c9GoodTrace e b c).count (Event.asyncReady "g") = (if e then 1 else 0) := by
  decide

/-- C10: on a store constructed with `env_placement=IGNORED`, membership
(`__contains__`) still consults the process environment through the
uppercased key and answers true for a key present only there, while `get`
on the same store never consults the environment and returns `None` for
that key. -/
theorem contains_env_key_ignored_placement (envMap : List (String × Val))
    (srcs : List (List (String × Val))) (k : String) (x : Val)
    (henv : alookup envMap (upperKey k) = some x)
    (hsrcs : ∀ m ∈ srcs, alookup m k = Option.none) :
    (Variables.mkVars envMap srcs EnvPlacement.ignored).containsKey k = true ∧
    ((Variables.mkVars envMap srcs EnvPlacement.ignored).getItem k).1 = Val.none := by
  constructor
  · simp [Variables.containsKey, Variables.mkVars, henv]
  · have hscan : Variables.scanSources (Variables.mkVars envMap srcs EnvPlacement.ignored) k
        (Variables.mkVars envMap srcs EnvPlacement.ignored).sources = Option.none := by
      apply scanSources_all_none
      intro t ht
      have hsrc : (Variables.mkVars envMap srcs EnvPlacement.ignored).sources =
          [SourceTag.localTag] ++ ((List.range srcs.length).map SourceTag.extra) ++
            [SourceTag.defaults] := rfl
      rw [hsrc] at ht
      simp only [List.mem_append, List.mem_map, List.mem_range, List.mem_singleton,
        List.mem_cons, List.not_mem_nil, or_false] at ht
      rcases ht with (rfl | ⟨i, _, rfl⟩) | rfl
      · rfl
      · simp only [Variables.sourceLookup]
        cases hg : (Variables.mkVars envMap srcs EnvPlacement.ignored).extras.get? i with
        | none => rfl
        | some m =>
          have hmem : m ∈ srcs := List.get?_mem hg
          simp [hsrcs m hmem]
      · rfl
    simp [Variables.getItem, Variables.resolveRaw, hscan]

/-- C10 (witness): `FOO` set only in the process environment; on an
environment-ignored store, `"foo" in store` is true yet `get("foo")` is
`None`. -/
theorem contains_env_key_ignored_placement_witness :
    (Variables.mkVars [("FOO", Val.str "bar")] [] EnvPlacement.ignored).containsKey
      "foo" = true ∧
    ((Variables.mkVars [("FOO", Val.str "bar")] [] EnvPlacement.ignored).getItem
      "foo").1 = Val.none := by
  exact contains_env_key_ignored_placement _ _ "foo" (Val.str "bar") (by decide)
    (by intro m hm; cases hm)

end SAF
